import Mathlib

/-!
Shallow embedding of `src/Ollama/OllamaTester.py` (class `OllamaTester`),
a connectivity diagnostic probe for an Ollama inference server.

External collaborators (the HTTP client, the DNS resolver, the socket
facility and the ping subprocess) are modelled by explicit outcome data
types; every check of the probe becomes a total Lean function from the
outcome of its external call to the `(bool, message)` pair the Python
code returns.  The composite decision procedure `test_connection` and
the exhaustive report `get_detailed_status` are functions of an
environment record holding one outcome per external call they make.
-/

namespace OllamaTester

/-- The `ConnectionStatus` enumeration of the source (lines 11-20). -/
inductive ConnectionStatus where
  | connected
  | no_internet
  | server_unreachable
  | model_not_loaded
  | authentication_failed
  | timeout
  | resource_unavailable
  | remote_server_unreachable
  | unknown_error
deriving Repr, DecidableEq

/-- Outcome of `socket.create_connection(("8.8.8.8", 53), timeout=3)`:
either the connection opens, or an `OSError` is raised. -/
inductive ConnOutcome where
  | ok
  | osError
deriving Repr, DecidableEq

/-- Outcome of the `subprocess.run(ping_cmd, ...)` call inside `ping_host`:
the process exits with a return code and captured stderr text, or the
subprocess facility raises `TimeoutExpired`, or some other exception. -/
inductive PingOutcome where
  | exited (returncode : Nat) (stderr : String)
  | timedOut
  | exc (e : String)
deriving Repr, DecidableEq

/-- The JSON body of a `/api/tags` response, as consumed by
`check_model_status`: either a JSON object whose optional `models` field
is an array of entries, each entry abstracted to its optional string
`name` field (`none` when `model.get("name")` yields no string equal to
any model name), or a body on which `.json()` raises. -/
inductive JsonTags where
  | ok (models : Option (List (Option String)))
  | malformed
deriving Repr, DecidableEq

/-- Outcome of a `requests.get(f"{base_url}/api/tags", ...)` call: a
response carrying a status code and body, or a raised
`requests.exceptions.RequestException` with message `e`. -/
inductive TagsOutcome where
  | resp (status_code : Nat) (body : JsonTags)
  | reqError (e : String)
deriving Repr, DecidableEq

/-- Outcome of the generic `requests.request(method, url, ...)` call in
`test_endpoint`: a response with a status code, or a raised
`requests.exceptions.Timeout`, or another `RequestException`. -/
inductive ReqOutcome where
  | resp (status_code : Nat)
  | timedOut
  | reqError (e : String)
deriving Repr, DecidableEq

/-- `check_internet_connectivity` (source lines 116-127): `True` when the
raw connection opens, `False` on `OSError`. -/
def check_internet_connectivity : ConnOutcome → Bool
  | ConnOutcome.ok => true
  | ConnOutcome.osError => false

/-- `ping_host` (source lines 59-96) on an already-bare hostname (the
scheme-stripping branch `host.startswith(('http://', 'https://'))` is the
identity on the bare hostnames `check_remote_server` passes in).  Success
is exit code zero; `TimeoutExpired` and other exceptions are caught and
converted to `(False, message)`. -/
def ping_host (host : String) (o : PingOutcome) : Bool × String :=
  match o with
  | PingOutcome.exited returncode stderr =>
      if returncode = 0 then
        (true, ("Successfully pinged ") ++ host)
      else
        (false, ("Failed to ping ") ++ host ++ (": ") ++ stderr)
  | PingOutcome.timedOut => (false, ("Ping timeout for ") ++ host)
  | PingOutcome.exc e => (false, ("Error pinging ") ++ host ++ (": ") ++ e)

/-- `check_remote_server` (source lines 98-114): short-circuits to success
when the configuration is not remote, otherwise delegates to `ping_host`
on the hostname of `base_url` and wraps its message. -/
def check_remote_server (is_remote : Bool) (host : String) (o : PingOutcome) :
    Bool × String :=
  if !is_remote then
    (true, "Local server, no ping test needed")
  else
    let ping := ping_host host o
    if !ping.1 then
      (false, ("Remote server ping failed: ") ++ ping.2)
    else
      (true, "Remote server is reachable")

/-- `check_server_availability` (source lines 129-142): HTTP 200 means
available; any other status code or a `RequestException` means not. -/
def check_server_availability (o : TagsOutcome) : Bool × String :=
  match o with
  | TagsOutcome.resp status_code _ =>
      if status_code = 200 then
        (true, "Server is available and responding")
      else
        (false, ("Server returned status code: ") ++ toString status_code)
  | TagsOutcome.reqError e => (false, ("Server is not reachable: ") ++ e)

/-- `check_model_status` (source lines 144-164): on HTTP 200, scan the
`models` array (defaulting to `[]` when the field is absent, as
`response.json().get("models", [])` does) for an entry whose `name`
equals `model_name`; non-200 and exceptions yield `(False, message)`. -/
def check_model_status (model_name : String) (o : TagsOutcome) : Bool × String :=
  match o with
  | TagsOutcome.resp status_code body =>
      if status_code = 200 then
        match body with
        | JsonTags.ok models =>
            if (models.getD []).contains (some model_name) then
              (true, ("Model ") ++ model_name ++ (" is available"))
            else
              (false, ("Model ") ++ model_name ++ (" is not loaded"))
        | JsonTags.malformed =>
            (false, ("Error checking model status: malformed JSON body"))
      else
        (false, ("Failed to check model status: ") ++ toString status_code)
  | TagsOutcome.reqError e =>
      (false, ("Error checking model status: ") ++ e)

/-- `test_endpoint` (source lines 227-263): the priority-ordered status
code policy, with `Timeout` and other `RequestException`s caught and
converted separately. -/
def test_endpoint (o : ReqOutcome) : Bool × String :=
  match o with
  | ReqOutcome.resp status_code =>
      if status_code = 401 then
        (false, "Authentication failed")
      else if status_code = 404 then
        (false, "Endpoint not found")
      else if status_code ≥ 500 then
        (false, ("Server error: ") ++ toString status_code)
      else if status_code ≥ 400 then
        (false, ("Request failed: ") ++ toString status_code)
      else
        (true, ("Endpoint test successful: ") ++ toString status_code)
  | ReqOutcome.timedOut => (false, "Request timed out")
  | ReqOutcome.reqError e => (false, ("Request failed: ") ++ e)

/-- One entry of the `details` mapping of a diagnosis report: the
`{"available": ..., "message": ...}` record built by `test_connection`. -/
structure Detail where
  available : Bool
  message : String
deriving Repr, DecidableEq

/-- The dictionary returned by `test_connection` (source lines 166-225):
a timestamp, a status, and the insertion-ordered `details` mapping. -/
structure DiagnosisReport where
  timestamp : Nat
  status : ConnectionStatus
  details : List (String × Detail)
deriving Repr, DecidableEq

/-- One environment for a `test_connection` run: the outcome of each
external call the procedure may make, plus the wall-clock timestamp. -/
structure Env where
  timestamp : Nat
  conn : ConnOutcome
  ping : PingOutcome
  tagsServer : TagsOutcome
  tagsModel : TagsOutcome
deriving Repr, DecidableEq

/-- `test_connection` (source lines 166-225): the composite decision
procedure.  Each executed step records its result into `details`; the
first failing step fixes the status and returns. -/
def test_connection (is_remote : Bool) (host : String) (env : Env) :
    DiagnosisReport :=
  let has_internet := check_internet_connectivity env.conn
  let d1 := [(("internet" : String),
    Detail.mk has_internet
      (if has_internet then ("Internet is available") else ("No internet connection")))]
  if !has_internet then
    { timestamp := env.timestamp, status := ConnectionStatus.no_internet,
      details := d1 }
  else
    let remote := check_remote_server is_remote host env.ping
    let d2 := if is_remote then
        d1 ++ [(("remote" : String), Detail.mk remote.1 remote.2)]
      else d1
    if is_remote && !remote.1 then
      { timestamp := env.timestamp,
        status := ConnectionStatus.remote_server_unreachable, details := d2 }
    else
      let server := check_server_availability env.tagsServer
      let d3 := d2 ++ [(("server" : String), Detail.mk server.1 server.2)]
      if !server.1 then
        { timestamp := env.timestamp,
          status := ConnectionStatus.server_unreachable, details := d3 }
      else
        let model := check_model_status ("llama2") env.tagsModel
        let d4 := d3 ++ [(("model" : String), Detail.mk model.1 model.2)]
        if !model.1 then
          { timestamp := env.timestamp,
            status := ConnectionStatus.model_not_loaded, details := d4 }
        else
          { timestamp := env.timestamp,
            status := ConnectionStatus.connected, details := d4 }

/-- One value of the `tests` mapping of the detailed status report: the
`internet` entry is a bare boolean, the `remote` entry an
`{"available", "message"}` record, and each endpoint entry a
`{"success", "message"}` record. -/
inductive TestVal where
  | boolVal (v : Bool)
  | availVal (available : Bool) (message : String)
  | successVal (success : Bool) (message : String)
deriving Repr, DecidableEq

/-- The dictionary returned by `get_detailed_status` (source lines
265-305). -/
structure StatusReport where
  timestamp : Nat
  base_url : String
  timeoutCfg : Nat
  is_remote : Bool
  tests : List (String × TestVal)
deriving Repr, DecidableEq

/-- Environment for a `get_detailed_status` run: the outcome of each
external call, with one `requests.request` outcome per endpoint path. -/
structure DEnv where
  timestamp : Nat
  conn : ConnOutcome
  ping : PingOutcome
  req : String → ReqOutcome

/-- The fixed endpoint list of `get_detailed_status` (source lines
292-296). -/
def endpointList : List String :=
  [("/api/tags"), ("/api/version"), ("/api/health")]

/-- `get_detailed_status` (source lines 265-305): unconditional internet
test, remote test only when remote, then one `test_endpoint` call per
endpoint of `endpointList`, all results collected with no
short-circuiting. -/
def get_detailed_status (base_url : String) (timeoutCfg : Nat)
    (is_remote : Bool) (host : String) (env : DEnv) : StatusReport :=
  let t1 := [(("internet" : String),
    TestVal.boolVal (check_internet_connectivity env.conn))]
  let t2 := if is_remote then
      let remote := check_remote_server is_remote host env.ping
      t1 ++ [(("remote" : String), TestVal.availVal remote.1 remote.2)]
    else t1
  let t3 := t2 ++ endpointList.map (fun ep =>
    let r := test_endpoint (env.req ep)
    (ep, TestVal.successVal r.1 r.2))
  { timestamp := env.timestamp, base_url := base_url,
    timeoutCfg := timeoutCfg, is_remote := is_remote, tests := t3 }

/-!  Locality classification (`_is_local_url`, source lines 36-57).

`socket.gethostbyname` either fails (`socket.gaierror`, caught and
mapped to "not local") or returns the canonical dotted-quad decimal
rendering of an IPv4 address; the source then classifies by
`str.startswith` against a tuple of nineteen prefixes.  We model the
resolved address as its four octets, render the dotted quad with a
decimal printer `natChars`, and model `str.startswith` as a prefix test
on character lists. -/

/-- An IPv4 address as four octets, the result of a successful
`socket.gethostbyname`. -/
structure IPv4 where
  a : Nat
  b : Nat
  c : Nat
  d : Nat
deriving Repr, DecidableEq

/-- Fuel-driven decimal digit expansion, most significant digit first. -/
def digitsAux : Nat → Nat → List Nat
  | 0, _ => []
  | fuel + 1, n => if n < 10 then [n] else digitsAux fuel (n / 10) ++ [n % 10]

/-- Decimal digits of `n`, most significant first. -/
def digits (n : Nat) : List Nat := digitsAux (n + 1) n

/-- The character list of the decimal rendering of `n`. -/
def natChars (n : Nat) : List Char := (digits n).map Nat.digitChar

/-- The character list of the canonical dotted-quad rendering of an IPv4
address, as returned by `socket.gethostbyname`. -/
def ipStr (ip : IPv4) : List Char :=
  natChars ip.a ++ '.' :: (natChars ip.b ++ '.' :: (natChars ip.c ++ '.' :: natChars ip.d))

/-- Python `s.startswith(p)` on character lists: `startsWithL s p` is
`true` when `p` is a prefix of `s`. -/
def startsWithL : List Char → List Char → Bool
  | _, [] => true
  | [], _ :: _ => false
  | a :: s, b :: p => a = b && startsWithL s p

/-- The nineteen prefixes of the `ip.startswith((...))` tuple at source
line 55. -/
def localPrefixes : List (List Char) :=
  [("127.").toList, ("192.168.").toList, ("10.").toList,
   ("172.16.").toList, ("172.17.").toList, ("172.18.").toList,
   ("172.19.").toList, ("172.20.").toList, ("172.21.").toList,
   ("172.22.").toList, ("172.23.").toList, ("172.24.").toList,
   ("172.25.").toList, ("172.26.").toList, ("172.27.").toList,
   ("172.28.").toList, ("172.29.").toList, ("172.30.").toList,
   ("172.31.").toList]

/-- `_is_local_url` (source lines 36-57) as a function of the parsed
hostname and the DNS resolution outcome (`none` models
`socket.gaierror`): loopback literals are local; otherwise local iff
resolution succeeds and the dotted-quad string starts with one of
`localPrefixes`. -/
def _is_local_url (hostname : String) (dns : Option IPv4) : Bool :=
  if hostname = "localhost" || hostname = "127.0.0.1" then
    true
  else
    match dns with
    | some ip => localPrefixes.any (fun p => startsWithL (ipStr ip) p)
    | none => false

/-- Recombine a most-significant-first decimal digit list into a number. -/
def valDigits (ds : List Nat) : Nat := ds.foldl (fun acc d => 10 * acc + d) 0

lemma valDigits_append_singleton (l : List Nat) (d : Nat) :
    valDigits (l ++ [d]) = 10 * valDigits l + d := by
  simp [valDigits, List.foldl_append]

lemma valDigits_digitsAux : ∀ fuel n, n ≤ fuel →
    valDigits (digitsAux (fuel + 1) n) = n := by
  intro fuel
  induction fuel with
  | zero =>
      intro n hn
      interval_cases n
      simp [digitsAux, valDigits]
  | succ f ih =>
      intro n hn
      by_cases h10 : n < 10
      · simp [digitsAux, h10, valDigits]
      · have hrec : digitsAux (f + 1 + 1) n = digitsAux (f + 1) (n / 10) ++ [n % 10] := by
          simp [digitsAux, h10]
        have hdiv : n / 10 ≤ f := by
          have := Nat.div_lt_self (by omega : 0 < n) (by omega : 1 < 10)
          omega
        rw [hrec, valDigits_append_singleton, ih (n / 10) hdiv]
        omega

lemma valDigits_digits (n : Nat) : valDigits (digits n) = n :=
  valDigits_digitsAux n n (Nat.le_refl n)

lemma digits_injEq {m n : Nat} (h : digits m = digits n) : m = n := by
  have := congrArg valDigits h
  rwa [valDigits_digits, valDigits_digits] at this

lemma digitsAux_lt_ten : ∀ fuel n, n ≤ fuel →
    ∀ d ∈ digitsAux (fuel + 1) n, d < 10 := by
  intro fuel
  induction fuel with
  | zero =>
      intro n hn d hd
      interval_cases n
      simp [digitsAux] at hd
      omega
  | succ f ih =>
      intro n hn d hd
      by_cases h10 : n < 10
      · simp [digitsAux, h10] at hd
        omega
      · have hrec : digitsAux (f + 1 + 1) n = digitsAux (f + 1) (n / 10) ++ [n % 10] := by
          simp [digitsAux, h10]
        rw [hrec, List.mem_append] at hd
        rcases hd with hd | hd
        · have hdiv : n / 10 ≤ f := by
            have := Nat.div_lt_self (by omega : 0 < n) (by omega : 1 < 10)
            omega
          exact ih (n / 10) hdiv d hd
        · simp at hd
          omega

lemma digits_lt_ten (n : Nat) : ∀ d ∈ digits n, d < 10 :=
  digitsAux_lt_ten n n (Nat.le_refl n)

lemma digitChar_ne_dot (d : Nat) (hd : d < 10) : Nat.digitChar d ≠ '.' := by
  interval_cases d <;> decide

lemma digitChar_injOn (a b : Nat) (ha : a < 10) (hb : b < 10)
    (h : Nat.digitChar a = Nat.digitChar b) : a = b := by
  interval_cases a <;> interval_cases b <;> simp_all <;> revert h <;> decide

lemma dot_not_mem_natChars (n : Nat) : '.' ∉ natChars n := by
  intro hmem
  rcases List.mem_map.mp hmem with ⟨d, hd, hchar⟩
  exact digitChar_ne_dot d (digits_lt_ten n d hd) hchar

lemma map_digitChar_injEq : ∀ (l1 l2 : List Nat), (∀ d ∈ l1, d < 10) →
    (∀ d ∈ l2, d < 10) → l1.map Nat.digitChar = l2.map Nat.digitChar → l1 = l2 := by
  intro l1
  induction l1 with
  | nil =>
      intro l2 _ _ h
      cases l2 with
      | nil => rfl
      | cons b t => simp at h
  | cons a s ih =>
      intro l2 h1 h2 h
      cases l2 with
      | nil => simp at h
      | cons b t =>
          simp only [List.map_cons, List.cons.injEq] at h
          have ha : a < 10 := h1 a (List.mem_cons_self a s)
          have hb : b < 10 := h2 b (List.mem_cons_self b t)
          have hab : a = b := digitChar_injOn a b ha hb h.1
          have ht : s = t := ih t (fun d hd => h1 d (List.mem_cons_of_mem a hd))
            (fun d hd => h2 d (List.mem_cons_of_mem b hd)) h.2
          rw [hab, ht]

lemma natChars_injEq {m n : Nat} (h : natChars m = natChars n) : m = n :=
  digits_injEq (map_digitChar_injEq (digits m) (digits n)
    (digits_lt_ten m) (digits_lt_ten n) h)

lemma startsWithL_nil (s : List Char) : startsWithL s [] = true := by
  cases s <;> rfl

lemma startsWithL_dot : ∀ (v u w r : List Char), '.' ∉ u → '.' ∉ v →
    (startsWithL (u ++ '.' :: r) (v ++ '.' :: w) = true ↔
      (v = u ∧ startsWithL r w = true)) := by
  intro v
  induction v with
  | nil =>
      intro u w r hu _
      cases u with
      | nil => simp [startsWithL]
      | cons a s =>
          rw [List.mem_cons] at hu
          push_neg at hu
          have ha : a ≠ '.' := Ne.symm hu.1
          simp [startsWithL, ha]
  | cons b t ih =>
      intro u w r hu hv
      rw [List.mem_cons] at hv
      push_neg at hv
      cases u with
      | nil =>
          simp [startsWithL, hv.1]
      | cons a s =>
          rw [List.mem_cons] at hu
          push_neg at hu
          simp only [List.cons_append, startsWithL, Bool.and_eq_true,
            decide_eq_true_eq, List.cons.injEq, List.append_eq]
          rw [ih s w r hu.2 hv.2]
          constructor
          · rintro ⟨hab, hts, hsw⟩
            exact ⟨⟨hab.symm, hts⟩, hsw⟩
          · rintro ⟨⟨hba, hts⟩, hsw⟩
            exact ⟨hba.symm, hts, hsw⟩

lemma seg1 (n a : Nat) (r : List Char) :
    startsWithL (natChars a ++ '.' :: r) (natChars n ++ ['.']) = true ↔ n = a := by
  rw [show (['.'] : List Char) = '.' :: [] from rfl,
    startsWithL_dot (natChars n) (natChars a) [] r
      (dot_not_mem_natChars a) (dot_not_mem_natChars n)]
  constructor
  · intro h
    exact natChars_injEq h.1
  · intro h
    exact ⟨h ▸ rfl, startsWithL_nil r⟩

lemma seg2 (n m a b : Nat) (r : List Char) :
    startsWithL (natChars a ++ '.' :: (natChars b ++ '.' :: r))
      (natChars n ++ '.' :: (natChars m ++ ['.'])) = true ↔ (n = a ∧ m = b) := by
  rw [startsWithL_dot (natChars n) (natChars a) (natChars m ++ ['.'])
    (natChars b ++ '.' :: r) (dot_not_mem_natChars a) (dot_not_mem_natChars n)]
  rw [seg1 m b r]
  constructor
  · intro h
    exact ⟨natChars_injEq h.1, h.2⟩
  · intro h
    exact ⟨h.1 ▸ rfl, h.2⟩

lemma between_16_31_cases (b : Nat) (h1 : 16 ≤ b) (h2 : b ≤ 31) :
    16 = b ∨ 17 = b ∨ 18 = b ∨ 19 = b ∨ 20 = b ∨ 21 = b ∨ 22 = b ∨ 23 = b ∨
    24 = b ∨ 25 = b ∨ 26 = b ∨ 27 = b ∨ 28 = b ∨ 29 = b ∨ 30 = b ∨ 31 = b := by
  interval_cases b <;> decide

lemma any_localPrefixes_iff (ip : IPv4) :
    localPrefixes.any (fun p => startsWithL (ipStr ip) p) = true ↔
      (ip.a = 127 ∨ ip.a = 10 ∨ (ip.a = 172 ∧ 16 ≤ ip.b ∧ ip.b ≤ 31) ∨
        (ip.a = 192 ∧ ip.b = 168)) := by
  obtain ⟨a, b, c, d⟩ := ip
  have hl : localPrefixes = [natChars 127 ++ ['.'],
    natChars 192 ++ '.' :: (natChars 168 ++ ['.']), natChars 10 ++ ['.'],
    natChars 172 ++ '.' :: (natChars 16 ++ ['.']),
    natChars 172 ++ '.' :: (natChars 17 ++ ['.']),
    natChars 172 ++ '.' :: (natChars 18 ++ ['.']),
    natChars 172 ++ '.' :: (natChars 19 ++ ['.']),
    natChars 172 ++ '.' :: (natChars 20 ++ ['.']),
    natChars 172 ++ '.' :: (natChars 21 ++ ['.']),
    natChars 172 ++ '.' :: (natChars 22 ++ ['.']),
    natChars 172 ++ '.' :: (natChars 23 ++ ['.']),
    natChars 172 ++ '.' :: (natChars 24 ++ ['.']),
    natChars 172 ++ '.' :: (natChars 25 ++ ['.']),
    natChars 172 ++ '.' :: (natChars 26 ++ ['.']),
    natChars 172 ++ '.' :: (natChars 27 ++ ['.']),
    natChars 172 ++ '.' :: (natChars 28 ++ ['.']),
    natChars 172 ++ '.' :: (natChars 29 ++ ['.']),
    natChars 172 ++ '.' :: (natChars 30 ++ ['.']),
    natChars 172 ++ '.' :: (natChars 31 ++ ['.'])] := by decide
  rw [hl]
  simp only [List.any_cons, List.any_nil, Bool.or_eq_true,
    Bool.false_eq_true, or_false]
  simp only [ipStr]
  simp only [seg1, seg2]
  constructor
  · intro h
    rcases h with h | h | h | h | h | h | h | h | h | h | h | h | h | h | h | h | h | h | h <;>
      omega
  · intro h
    rcases h with h | h | ⟨h1, h2, h3⟩ | ⟨h1, h2⟩
    · exact Or.inl h.symm
    · exact Or.inr (Or.inr (Or.inl h.symm))
    · subst h1
      have hb := between_16_31_cases b h2 h3
      rcases hb with hb | hb | hb | hb | hb | hb | hb | hb | hb | hb | hb | hb | hb | hb | hb | hb <;>
        subst hb <;> decide
    · exact Or.inr (Or.inl ⟨h1.symm, h2.symm⟩)

/-- C1: whenever the internet check comes back false, `test_connection`
reports status `no_internet` and its `details` mapping holds exactly the
single entry keyed `internet`, whatever the remote flag, host, ping,
server and model outcomes are. -/
theorem test_connection_no_internet (is_remote : Bool) (host : String) (env : Env)
    (h : check_internet_connectivity env.conn = false) :
    (test_connection is_remote host env).status = ConnectionStatus.no_internet ∧
    (test_connection is_remote host env).details =
      [(("internet" : String), Detail.mk false ("No internet connection"))] := by
  simp [test_connection, h]

theorem test_connection_no_internet_witness :
    check_internet_connectivity
      (Env.mk 0 ConnOutcome.osError PingOutcome.timedOut
        (TagsOutcome.reqError "refused") (TagsOutcome.reqError "refused")).conn = false ∧
    ((test_connection true ("203.0.113.9")
        (Env.mk 0 ConnOutcome.osError PingOutcome.timedOut
          (TagsOutcome.reqError "refused") (TagsOutcome.reqError "refused"))).status =
       ConnectionStatus.no_internet ∧
     (test_connection true ("203.0.113.9")
        (Env.mk 0 ConnOutcome.osError PingOutcome.timedOut
          (TagsOutcome.reqError "refused") (TagsOutcome.reqError "refused"))).details =
       [(("internet" : String), Detail.mk false ("No internet connection"))]) :=
  ⟨rfl, test_connection_no_internet true ("203.0.113.9")
    (Env.mk 0 ConnOutcome.osError PingOutcome.timedOut
      (TagsOutcome.reqError "refused") (TagsOutcome.reqError "refused")) rfl⟩

/-- C5: in a remote configuration whose internet check succeeds and whose
ping fails, `test_connection` reports `remote_server_unreachable` and the
`details` keys are exactly `internet` and `remote` (so neither `server`
nor `model` is present). -/
theorem test_connection_remote_unreachable (host : String) (env : Env)
    (hi : check_internet_connectivity env.conn = true)
    (hp : (ping_host host env.ping).1 = false) :
    (test_connection true host env).status =
      ConnectionStatus.remote_server_unreachable ∧
    (test_connection true host env).details.map Prod.fst =
      [("internet"), ("remote")] := by
  simp [test_connection, hi, check_remote_server, hp]

theorem test_connection_remote_unreachable_witness :
    check_internet_connectivity
      (Env.mk 7 ConnOutcome.ok PingOutcome.timedOut
        (TagsOutcome.reqError "refused") (TagsOutcome.reqError "refused")).conn = true ∧
    (ping_host ("203.0.113.9")
      (Env.mk 7 ConnOutcome.ok PingOutcome.timedOut
        (TagsOutcome.reqError "refused") (TagsOutcome.reqError "refused")).ping).1 = false ∧
    ((test_connection true ("203.0.113.9")
        (Env.mk 7 ConnOutcome.ok PingOutcome.timedOut
          (TagsOutcome.reqError "refused") (TagsOutcome.reqError "refused"))).status =
       ConnectionStatus.remote_server_unreachable ∧
     (test_connection true ("203.0.113.9")
        (Env.mk 7 ConnOutcome.ok PingOutcome.timedOut
          (TagsOutcome.reqError "refused") (TagsOutcome.reqError "refused"))).details.map
        Prod.fst = [("internet"), ("remote")]) :=
  ⟨rfl, rfl, test_connection_remote_unreachable ("203.0.113.9")
    (Env.mk 7 ConnOutcome.ok PingOutcome.timedOut
      (TagsOutcome.reqError "refused") (TagsOutcome.reqError "refused")) rfl rfl⟩

/-- C6: on every run `test_connection` returns one of the five statuses
`connected`, `no_internet`, `remote_server_unreachable`,
`server_unreachable`, `model_not_loaded`, and never the reserved
`authentication_failed`, `timeout`, `resource_unavailable` statuses nor
the initial fallback `unknown_error`. -/
theorem test_connection_status_range (is_remote : Bool) (host : String) (env : Env) :
    ((test_connection is_remote host env).status = ConnectionStatus.connected ∨
     (test_connection is_remote host env).status = ConnectionStatus.no_internet ∨
     (test_connection is_remote host env).status = ConnectionStatus.remote_server_unreachable ∨
     (test_connection is_remote host env).status = ConnectionStatus.server_unreachable ∨
     (test_connection is_remote host env).status = ConnectionStatus.model_not_loaded) ∧
    (test_connection is_remote host env).status ≠ ConnectionStatus.authentication_failed ∧
    (test_connection is_remote host env).status ≠ ConnectionStatus.timeout ∧
    (test_connection is_remote host env).status ≠ ConnectionStatus.resource_unavailable ∧
    (test_connection is_remote host env).status ≠ ConnectionStatus.unknown_error := by
  simp only [test_connection]
  split
  · refine ⟨Or.inr (Or.inl rfl), ?_, ?_, ?_, ?_⟩ <;> simp
  · split
    · refine ⟨Or.inr (Or.inr (Or.inl rfl)), ?_, ?_, ?_, ?_⟩ <;> simp
    · split
      · refine ⟨Or.inr (Or.inr (Or.inr (Or.inl rfl))), ?_, ?_, ?_, ?_⟩ <;> simp
      · split
        · refine ⟨Or.inr (Or.inr (Or.inr (Or.inr rfl))), ?_, ?_, ?_, ?_⟩ <;> simp
        · refine ⟨Or.inl rfl, ?_, ?_, ?_, ?_⟩ <;> simp

/-- C4: the locality flag is true iff the hostname is one of the
recognized loopback literals, or DNS resolution succeeds and the resolved
IPv4 address lies in 127.0.0.0/8, 10.0.0.0/8, 172.16.0.0/12 or
192.168.0.0/16; a failed resolution (`dns = none`) is classified remote. -/
theorem is_local_url_iff (hostname : String) (dns : Option IPv4) :
    _is_local_url hostname dns = true ↔
      ((hostname = "localhost" ∨ hostname = "127.0.0.1") ∨
        ∃ ip, dns = some ip ∧
          (ip.a = 127 ∨ ip.a = 10 ∨ (ip.a = 172 ∧ 16 ≤ ip.b ∧ ip.b ≤ 31) ∨
            (ip.a = 192 ∧ ip.b = 168))) := by
  by_cases hloop : hostname = "localhost" ∨ hostname = "127.0.0.1"
  · have hcond : (hostname = "localhost" || hostname = "127.0.0.1") = true := by
      rcases hloop with h | h <;> simp [h]
    simp [_is_local_url, hcond, hloop]
  · have hcond : (hostname = "localhost" || hostname = "127.0.0.1") = false := by
      push_neg at hloop
      simp [hloop.1, hloop.2]
    rcases dns with _ | ip
    · simp [_is_local_url, hcond, hloop]
    · simp only [_is_local_url, hcond, Bool.false_eq_true, if_false]
      rw [any_localPrefixes_iff ip]
      constructor
      · intro h
        exact Or.inr ⟨ip, rfl, h⟩
      · intro h
        rcases h with h | ⟨ip', hip', h⟩
        · exact absurd h hloop
        · rwa [(Option.some.injEq ip ip').mp hip']

/-- C2: the status-code policy of `test_endpoint` is total and
priority-ordered (401 before 404 before the 5xx band before the rest of
the 4xx band before success), and a timeout exception is converted to the
specific message `Request timed out`, distinct from the generic message
other request exceptions get. -/
theorem test_endpoint_policy (status_code : Nat) :
    (status_code = 401 →
      test_endpoint (ReqOutcome.resp status_code) = (false, "Authentication failed")) ∧
    (status_code = 404 →
      test_endpoint (ReqOutcome.resp status_code) = (false, "Endpoint not found")) ∧
    (500 ≤ status_code →
      test_endpoint (ReqOutcome.resp status_code) =
        (false, ("Server error: ") ++ toString status_code)) ∧
    (400 ≤ status_code → status_code < 500 → status_code ≠ 401 → status_code ≠ 404 →
      test_endpoint (ReqOutcome.resp status_code) =
        (false, ("Request failed: ") ++ toString status_code)) ∧
    (status_code < 400 → status_code ≠ 401 → status_code ≠ 404 →
      test_endpoint (ReqOutcome.resp status_code) =
        (true, ("Endpoint test successful: ") ++ toString status_code)) ∧
    (test_endpoint ReqOutcome.timedOut = (false, "Request timed out")) ∧
    (∀ e, test_endpoint (ReqOutcome.reqError e) = (false, ("Request failed: ") ++ e)) ∧
    (∀ e, test_endpoint (ReqOutcome.reqError e) ≠ test_endpoint ReqOutcome.timedOut) := by
  refine ⟨?_, ?_, ?_, ?_, ?_, rfl, fun e => rfl, ?_⟩
  · intro h
    simp [test_endpoint, h]
  · intro h
    simp [test_endpoint, h]
  · intro h
    have h1 : status_code ≠ 401 := by omega
    have h4 : status_code ≠ 404 := by omega
    simp [test_endpoint, h1, h4, h]
  · intro h4a h4b h1 h4
    have h5 : ¬(500 ≤ status_code) := by omega
    simp [test_endpoint, h1, h4, h5, h4a]
  · intro hlt h1 h4
    have h5 : ¬(500 ≤ status_code) := by omega
    have h4a : ¬(400 ≤ status_code) := by omega
    simp [test_endpoint, h1, h4, h5, h4a]
  · intro e hcontra
    have hsnd : ("Request failed: " : String) ++ e = "Request timed out" :=
      congrArg Prod.snd hcontra
    have hdata := congrArg String.data hsnd
    rw [String.data_append] at hdata
    have htake := congrArg (List.take 9) hdata
    rw [List.take_append_of_le_length (by decide)] at htake
    exact absurd htake (by decide)

theorem test_endpoint_policy_witness :
    ((401 : Nat) = 401 ∧
      test_endpoint (ReqOutcome.resp 401) = (false, "Authentication failed")) ∧
    ((404 : Nat) = 404 ∧
      test_endpoint (ReqOutcome.resp 404) = (false, "Endpoint not found")) ∧
    (500 ≤ (503 : Nat) ∧
      test_endpoint (ReqOutcome.resp 503) = (false, ("Server error: ") ++ toString (503 : Nat))) ∧
    (400 ≤ (418 : Nat) ∧ (418 : Nat) < 500 ∧ (418 : Nat) ≠ 401 ∧ (418 : Nat) ≠ 404 ∧
      test_endpoint (ReqOutcome.resp 418) = (false, ("Request failed: ") ++ toString (418 : Nat))) ∧
    ((200 : Nat) < 400 ∧ (200 : Nat) ≠ 401 ∧ (200 : Nat) ≠ 404 ∧
      test_endpoint (ReqOutcome.resp 200) =
        (true, ("Endpoint test successful: ") ++ toString (200 : Nat))) ∧
    test_endpoint (ReqOutcome.reqError "connection refused") ≠
      test_endpoint ReqOutcome.timedOut :=
  ⟨⟨rfl, (test_endpoint_policy 401).1 rfl⟩,
   ⟨rfl, (test_endpoint_policy 404).2.1 rfl⟩,
   ⟨by decide, (test_endpoint_policy 503).2.2.1 (by decide)⟩,
   ⟨by decide, by decide, by decide, by decide,
     (test_endpoint_policy 418).2.2.2.1 (by decide) (by decide) (by decide) (by decide)⟩,
   ⟨by decide, by decide, by decide,
     (test_endpoint_policy 200).2.2.2.2.1 (by decide) (by decide) (by decide)⟩,
   (test_endpoint_policy 0).2.2.2.2.2.2.2 ("connection refused")⟩

/-- C3: `check_model_status` answers true exactly when the `/api/tags`
request yields HTTP 200 with a well-formed body whose `models` array
(empty when the field is absent) has an entry whose `name` equals the
queried name; every other outcome answers false. -/
theorem check_model_status_iff (model_name : String) (o : TagsOutcome) :
    (check_model_status model_name o).1 = true ↔
      ∃ models, o = TagsOutcome.resp 200 (JsonTags.ok models) ∧
        some model_name ∈ models.getD [] := by
  cases o with
  | resp status_code body =>
      cases body with
      | ok models =>
          by_cases hc : status_code = 200
          · subst hc
            by_cases hm : some model_name ∈ models.getD []
            · simp [check_model_status, hm]
            · simp [check_model_status, hm]
          · simp [check_model_status, hc]
      | malformed =>
          by_cases hc : status_code = 200
          · subst hc
            simp [check_model_status]
          · simp [check_model_status, hc]
  | reqError e => simp [check_model_status]

/-- C10: a 200 response whose JSON object has no `models` field is
treated by `check_model_status` exactly like an empty model list: the
result is the ordinary model-not-loaded failure, not an error report. -/
theorem check_model_status_missing_field (model_name : String) :
    check_model_status model_name (TagsOutcome.resp 200 (JsonTags.ok none)) =
      (false, ("Model ") ++ model_name ++ (" is not loaded")) ∧
    check_model_status model_name (TagsOutcome.resp 200 (JsonTags.ok none)) =
      check_model_status model_name (TagsOutcome.resp 200 (JsonTags.ok (some []))) := by
  constructor <;> simp [check_model_status]

/-- C7: every check is a total function of its external outcome, so no
modelled exception escapes to the caller; each recoverable exception
outcome (subprocess timeout, generic subprocess exception, request
exception, request timeout) is converted inside the check into a
`(false, message)` result. -/
theorem checks_convert_exceptions :
    (∀ host, ping_host host PingOutcome.timedOut =
      (false, ("Ping timeout for ") ++ host)) ∧
    (∀ host e, ping_host host (PingOutcome.exc e) =
      (false, ("Error pinging ") ++ host ++ (": ") ++ e)) ∧
    (∀ host, (check_remote_server true host PingOutcome.timedOut).1 = false) ∧
    (∀ host e, (check_remote_server true host (PingOutcome.exc e)).1 = false) ∧
    (∀ e, check_server_availability (TagsOutcome.reqError e) =
      (false, ("Server is not reachable: ") ++ e)) ∧
    (∀ model_name e, check_model_status model_name (TagsOutcome.reqError e) =
      (false, ("Error checking model status: ") ++ e)) ∧
    (test_endpoint ReqOutcome.timedOut = (false, "Request timed out")) ∧
    (∀ e, test_endpoint (ReqOutcome.reqError e) =
      (false, ("Request failed: ") ++ e)) :=
  ⟨fun _ => rfl, fun _ _ => rfl, fun _ => rfl, fun _ _ => rfl,
   fun _ => rfl, fun _ _ => rfl, rfl, fun _ => rfl⟩

/-- C8: `get_detailed_status` always records the internet check first,
records a `remote` entry exactly when the configuration is remote, and
then records one `test_endpoint` result for each of `/api/tags`,
`/api/version`, `/api/health` in that order, with no short-circuiting on
failures. -/
theorem get_detailed_status_shape (base_url : String) (timeoutCfg : Nat)
    (is_remote : Bool) (host : String) (env : DEnv) :
    ((get_detailed_status base_url timeoutCfg is_remote host env).tests.map Prod.fst =
      ("internet") :: ((if is_remote then [("remote")] else []) ++ endpointList)) ∧
    ((("internet" : String), TestVal.boolVal (check_internet_connectivity env.conn)) ∈
      (get_detailed_status base_url timeoutCfg is_remote host env).tests) ∧
    ((∃ v, (("remote" : String), v) ∈
        (get_detailed_status base_url timeoutCfg is_remote host env).tests) ↔
      is_remote = true) ∧
    (∀ ep ∈ endpointList,
      (ep, TestVal.successVal (test_endpoint (env.req ep)).1 (test_endpoint (env.req ep)).2) ∈
        (get_detailed_status base_url timeoutCfg is_remote host env).tests) := by
  cases is_remote
  · refine ⟨?_, ?_, ?_, ?_⟩
    · simp [get_detailed_status, endpointList]
    · simp [get_detailed_status, endpointList]
    · simp [get_detailed_status, endpointList]
    · intro ep hep
      simp only [endpointList, List.mem_cons, List.not_mem_nil, or_false] at hep
      rcases hep with hep | hep | hep <;> subst hep <;>
        simp [get_detailed_status, endpointList]
  · refine ⟨?_, ?_, ?_, ?_⟩
    · simp [get_detailed_status, endpointList]
    · simp [get_detailed_status, endpointList]
    · simp [get_detailed_status, endpointList]
    · intro ep hep
      simp only [endpointList, List.mem_cons, List.not_mem_nil, or_false] at hep
      rcases hep with hep | hep | hep <;> subst hep <;>
        simp [get_detailed_status, endpointList]

end OllamaTester
